import Mathlib

/-!
Verification of the access-control / abuse-mitigation core of the
`alx-polly` repository, as a shallow embedding in Lean 4.

The embedding covers:
* the in-memory sliding-window rate limiter
  (`checkRateLimit`, `clearRateLimit` in `app/lib/context/auth-context.tsx`,
  a.k.a. `lib/utils/rate-limit`);
* the credential validators (`validateEmail`, `validatePassword`,
  `sanitizeInput`);
* the `login` server action's decision pipeline, with the external
  identity provider abstracted as an explicit outcome parameter;
* the `updateSession` middleware (path classification, security headers,
  redirect-to-login).

Timestamps and JavaScript numbers are modelled as `Int`; the process-wide
`Map` is modelled as a function `String → Option RateLimitEntry`, with the
current time passed explicitly.
-/

namespace AlxPolly

/-- Entry of the in-memory attempt store.  Mirrors
`interface RateLimitEntry { count; lastAttempt; blocked }`:
the stored timestamp is the time of the *last* attempt (it is reassigned
on every non-reset call), not the time the window started. -/
structure RateLimitEntry where
  count : Int
  lastAttempt : Int
  blocked : Bool
deriving DecidableEq, Repr

/-- Result of a rate-limit check: mirrors the anonymous return type
`{ allowed; remainingAttempts; resetTime }` of `checkRateLimit`. -/
structure RateLimitDecision where
  allowed : Bool
  remainingAttempts : Int
  resetTime : Int
deriving DecidableEq, Repr

/-- The process-wide `attemptStore : Map<string, RateLimitEntry>`,
modelled extensionally. -/
def Store : Type := String → Option RateLimitEntry

/-- A `Map` with no entries. -/
def emptyStore : Store := fun _ => none

/-- `attemptStore.set(k, v)`. -/
def storeSet (s : Store) (k : String) (v : RateLimitEntry) : Store :=
  fun k' => if k' = k then some v else s k'

/-- `attemptStore.delete(k)`. -/
def storeDelete (s : Store) (k : String) : Store :=
  fun k' => if k' = k then none else s k'

/-- `checkRateLimit(identifier, maxAttempts, windowMs)` from
`auth-context.tsx` lines 154-211, with the store and `Date.now()` made
explicit.  Returns the decision together with the updated store.
In the source the blocked/allowed branches return
`resetTime: entry.lastAttempt + windowMs` where `entry.lastAttempt` has
just been assigned `now`, so both are written here as `now + windowMs`. -/
def checkRateLimit (store : Store) (now : Int) (identifier : String)
    (maxAttempts : Int) (windowMs : Int) : RateLimitDecision × Store :=
  match store identifier with
  | none =>
      -- First attempt
      (⟨true, maxAttempts - 1, now + windowMs⟩,
        storeSet store identifier ⟨1, now, false⟩)
  | some entry =>
      -- Check if enough time has passed to reset
      if now - entry.lastAttempt > windowMs then
        (⟨true, maxAttempts - 1, now + windowMs⟩,
          storeSet store identifier ⟨1, now, false⟩)
      else
        -- Increment attempt counter, refresh lastAttempt
        if entry.count + 1 > maxAttempts then
          (⟨false, 0, now + windowMs⟩,
            storeSet store identifier ⟨entry.count + 1, now, true⟩)
        else
          (⟨true, maxAttempts - (entry.count + 1), now + windowMs⟩,
            storeSet store identifier ⟨entry.count + 1, now, entry.blocked⟩)

/-- `clearRateLimit(identifier)` from `auth-context.tsx` lines 213-215. -/
def clearRateLimit (store : Store) (identifier : String) : Store :=
  storeDelete store identifier

/-- State of the attempt store after `k` successive `checkRateLimit`
calls for one identifier, the `i`-th call made at time `times i`,
starting from store `s0`. -/
def stateAfter (s0 : Store) (id : String) (maxA win : Int)
    (times : Nat → Int) : Nat → Store
  | 0 => s0
  | k + 1 =>
      (checkRateLimit (stateAfter s0 id maxA win times k) (times k)
        id maxA win).2

/-- Decision returned by the `(k+1)`-th call (0-based index `k`) of the
trace described in `stateAfter`. -/
def decisionAt (s0 : Store) (id : String) (maxA win : Int)
    (times : Nat → Int) (k : Nat) : RateLimitDecision :=
  (checkRateLimit (stateAfter s0 id maxA win times k) (times k)
    id maxA win).1

/-- Constant time sequence, used to instantiate trace theorems. -/
def zeroTimes : Nat → Int := fun _ => 0

/-! ### Validators (`auth-actions.ts`) -/

/-- `{ isValid: boolean; message?: string }` returned by
`validatePassword`. -/
structure ValidationResult where
  isValid : Bool
  message : Option String
deriving DecidableEq, Repr

/-- Character class of the password rule
`[!@#$%^&*()_+\-=\[\]{};':"\\|,.<>\/?]` spelled out character by
character. -/
def isSpecialChar (c : Char) : Bool :=
  ['!', '@', '#', '$', '%', '^', '&', '*', '(', ')', '_', '+', '-', '=',
    '[', ']', '\x7b', '\x7d', ';', '\'', ':', '"', '\\', '|', ',', '.',
    '<', '>', '/', '?'].contains c

/-- `validatePassword(password)` from `auth-actions.ts`: six rules
checked in order, first violation returned, `{ isValid: true }` when all
pass.  The regexes `(?=.*[a-z])`, `(?=.*[A-Z])`, `(?=.*\d)` test for the
presence of an ASCII lowercase letter, uppercase letter, digit. -/
def validatePassword (password : String) : ValidationResult :=
  if password.length < 8 then
    ⟨false, some "Password must be at least 8 characters long"⟩
  else if password.length > 128 then
    ⟨false, some "Password must be less than 128 characters"⟩
  else if !password.toList.any Char.isLower then
    ⟨false, some "Password must contain at least one lowercase letter"⟩
  else if !password.toList.any Char.isUpper then
    ⟨false, some "Password must contain at least one uppercase letter"⟩
  else if !password.toList.any Char.isDigit then
    ⟨false, some "Password must contain at least one number"⟩
  else if !password.toList.any isSpecialChar then
    ⟨false, some "Password must contain at least one special character"⟩
  else
    ⟨true, none⟩

/-- Split a character list at every occurrence of `sep` (the list-level
counterpart of `String.splitOn` with a one-character separator). -/
def splitChar (sep : Char) : List Char → List (List Char)
  | [] => [[]]
  | c :: rest =>
      match splitChar sep rest with
      | [] => [[]]
      | p :: ps => if c = sep then [] :: p :: ps else (c :: p) :: ps

/-- The part of the email regex after the `@`: `[^\s@]+\.[^\s@]+`
matches a string without whitespace or `@` that has a `.` at some
position which is neither first nor last. -/
def hasInteriorDot (cs : List Char) : Bool :=
  match cs with
  | [] => false
  | _ :: rest => rest.dropLast.contains '.'

/-- `validateEmail(email)` from `auth-actions.ts`: the regex
`/^[^\s@]+@[^\s@]+\.[^\s@]+$/` (exactly one `@`; nonempty local part
without whitespace; domain part without whitespace containing an
interior dot) together with the 254-character length cap. -/
def validateEmail (email : String) : Bool :=
  (match splitChar '@' email.toList with
    | [a, r] =>
        !a.isEmpty && a.all (fun c => !c.isWhitespace) &&
        !r.isEmpty && r.all (fun c => !c.isWhitespace) &&
        hasInteriorDot r
    | _ => false) &&
  email.length ≤ 254

/-- Leading and trailing whitespace removal on a character list
(the list-level counterpart of `String.trim`). -/
def trimChars (cs : List Char) : List Char :=
  ((cs.dropWhile Char.isWhitespace).reverse.dropWhile
    Char.isWhitespace).reverse

/-- `sanitizeInput(input)` from `auth-actions.ts`:
`input.trim().replace(/[<>]/g, '')`. -/
def sanitizeInput (input : String) : String :=
  String.mk ((trimChars input.toList).filter (fun c => c ≠ '<' && c ≠ '>'))

/-! ### The `login` server action -/

/-- `pat` occurs as a leading segment of `cs`. -/
def charsStartWith : List Char → List Char → Bool
  | _, [] => true
  | [], _ :: _ => false
  | c :: cs, p :: ps => c == p && charsStartWith cs ps

/-- `pat` occurs as a contiguous segment of `cs`. -/
def charsContain : List Char → List Char → Bool
  | [], pat => pat.isEmpty
  | c :: cs, pat => charsStartWith (c :: cs) pat || charsContain cs pat

/-- JavaScript `s.includes(pat)` (used as `error.message.includes(...)`
in the source). -/
def strIncludes (s pat : String) : Bool :=
  charsContain s.toList pat.toList

/-- Outcome of `supabase.auth.signInWithPassword`: success, an error
object whose `message` is `msg`, or a thrown exception (caught by the
surrounding `try`/`catch`). -/
inductive ProviderOutcome where
  | success
  | failure (msg : String)
  | thrown
deriving DecidableEq, Repr

/-- The provider-error translation performed by `login` in
`auth-actions.ts` lines 380-392: three substring-mapped public messages
plus a generic catch-all. -/
def mapSignInError (msg : String) : String :=
  if strIncludes msg "Invalid login credentials" then
    "Invalid email or password"
  else if strIncludes msg "Email not confirmed" then
    "Please verify your email address before signing in"
  else if strIncludes msg "Too many requests" then
    "Too many login attempts. Please try again later"
  else
    "Authentication failed. Please try again"

/-- The four public login-failure messages of `mapSignInError`. -/
def publicSignInErrors : List String :=
  ["Invalid email or password",
    "Please verify your email address before signing in",
    "Too many login attempts. Please try again later",
    "Authentication failed. Please try again"]

/-- Rate-limit rejection message of `login`; the source interpolates
`resetTime.toLocaleTimeString()`, modelled as the decimal timestamp. -/
def rateLimitMsg (resetTime : Int) : String :=
  "Too many login attempts. Please try again after " ++ toString resetTime

/-- `{ error: string | null }` as returned by the `login` action. -/
structure LoginResult where
  error : Option String
deriving DecidableEq, Repr

/-- `login(data)` from `auth-actions.ts` lines 339-400, with the store,
`Date.now()`, the derived client IP and the provider outcome made
explicit.  JavaScript falsiness of `data.email` / `data.password`
(empty string) is written as a zero-length test.  Every branch returns
the store produced by the initial `checkRateLimit` call; the source
contains no other store mutation (in particular no `clearRateLimit`). -/
def login (store : Store) (now : Int) (clientIP : String)
    (email password : String) (provider : ProviderOutcome) :
    LoginResult × Store :=
  let res := checkRateLimit store now ("login:" ++ clientIP) 5 900000
  let store' := res.2
  if !res.1.allowed then
    (⟨some (rateLimitMsg res.1.resetTime)⟩, store')
  else if email.length == 0 || password.length == 0 then
    (⟨some "Email and password are required"⟩, store')
  else if !validateEmail (sanitizeInput email) then
    (⟨some "Please enter a valid email address"⟩, store')
  else if password.length < 1 then
    (⟨some "Password is required"⟩, store')
  else
    match provider with
    | .success => (⟨none⟩, store')
    | .failure msg => (⟨some (mapSignInError msg)⟩, store')
    | .thrown =>
        (⟨some "An unexpected error occurred. Please try again"⟩, store')

/-! ### The `updateSession` middleware -/

/-- Projection of an inbound request: its `nextUrl.pathname` and whether
`supabase.auth.getUser()` resolved a user. -/
structure MwRequest where
  pathname : String
  user : Bool
deriving DecidableEq, Repr

/-- Middleware outcome: either the pass-through `supabaseResponse`
carrying the listed headers, or the fresh `NextResponse.redirect`
produced on line 200 of the middleware, which targets `/login` with
the original pathname in its `redirect` query parameter and does not
carry the security headers set on `supabaseResponse`. -/
inductive MwResult where
  | next (headers : List (String × String))
  | redirect (pathname : String) (redirectParam : String)
deriving DecidableEq, Repr

/-- Whether the middleware outcome is a redirect response. -/
def MwResult.isRedirect : MwResult → Bool
  | .next _ => false
  | .redirect _ _ => true

/-- The response headers of a middleware outcome, restricted to the
security headers set by `updateSession` (a redirect response is created
fresh and carries none of them). -/
def MwResult.securityHeaderList : MwResult → List (String × String)
  | .next hs => hs
  | .redirect _ _ => []

/-- The four headers set unconditionally on `supabaseResponse`. -/
def securityHeaders : List (String × String) :=
  [("X-Frame-Options", "DENY"),
    ("X-Content-Type-Options", "nosniff"),
    ("Referrer-Policy", "strict-origin-when-cross-origin"),
    ("X-XSS-Protection", "1; mode=block")]

/-- The `publicPaths` array of `updateSession`. -/
def publicPaths : List String :=
  ["/login", "/register", "/auth", "/_next", "/favicon.ico", "/api"]

/-- `cs` ends with the segment `pat`. -/
def charsEndWith (cs pat : List Char) : Bool :=
  charsStartWith cs.reverse pat.reverse

/-- `publicPaths.some(path => request.nextUrl.pathname.startsWith(path))`. -/
def isPublicPath (pathname : String) : Bool :=
  publicPaths.any (fun p => charsStartWith pathname.toList p.toList)

/-- The case-insensitive static-file test
`/\.(svg|png|jpg|jpeg|gif|webp|ico|css|js)$/i`. -/
def isStaticFile (pathname : String) : Bool :=
  ["svg", "png", "jpg", "jpeg", "gif", "webp", "ico", "css", "js"].any
    (fun ext =>
      charsEndWith (pathname.toList.map Char.toLower) ("." ++ ext).toList)

/-- `updateSession(request)` from the middleware source: public or
static paths pass through; otherwise an unauthenticated request is
redirected to `/login` with `redirect=<original pathname>`; an
authenticated request passes through. -/
def updateSession (req : MwRequest) : MwResult :=
  if isPublicPath req.pathname || isStaticFile req.pathname then
    .next securityHeaders
  else if !req.user then
    .redirect "/login" req.pathname
  else
    .next securityHeaders

/-! ### Helper lemmas -/

lemma storeSet_self (s : Store) (k : String) (v : RateLimitEntry) :
    storeSet s k v k = some v := by
  simp [storeSet]

lemma clearRateLimit_self (s : Store) (k : String) :
    clearRateLimit s k k = none := by
  simp [clearRateLimit, storeDelete]

/-- Branch lemma: unseen identifier. -/
lemma checkRateLimit_fresh (store : Store) (now : Int) (id : String)
    (maxA win : Int) (h : store id = none) :
    checkRateLimit store now id maxA win =
      (⟨true, maxA - 1, now + win⟩, storeSet store id ⟨1, now, false⟩) := by
  simp [checkRateLimit, h]

/-- Branch lemma: entry present but stale (strictly more than `windowMs`
since the last attempt), so the counter is reset. -/
lemma checkRateLimit_reset (store : Store) (now : Int) (id : String)
    (maxA win : Int) (e : RateLimitEntry) (h : store id = some e)
    (hstale : now - e.lastAttempt > win) :
    checkRateLimit store now id maxA win =
      (⟨true, maxA - 1, now + win⟩, storeSet store id ⟨1, now, false⟩) := by
  simp [checkRateLimit, h, hstale]

/-- Branch lemma: entry present, in-window, incremented counter still
within budget. -/
lemma checkRateLimit_allowed (store : Store) (now : Int) (id : String)
    (maxA win : Int) (e : RateLimitEntry) (h : store id = some e)
    (hin : ¬ now - e.lastAttempt > win) (hc : ¬ e.count + 1 > maxA) :
    checkRateLimit store now id maxA win =
      (⟨true, maxA - (e.count + 1), now + win⟩,
        storeSet store id ⟨e.count + 1, now, e.blocked⟩) := by
  simp [checkRateLimit, h, hin, hc]

/-- Branch lemma: entry present, in-window, incremented counter over
budget: rejected and marked blocked. -/
lemma checkRateLimit_blocked (store : Store) (now : Int) (id : String)
    (maxA win : Int) (e : RateLimitEntry) (h : store id = some e)
    (hin : ¬ now - e.lastAttempt > win) (hc : e.count + 1 > maxA) :
    checkRateLimit store now id maxA win =
      (⟨false, 0, now + win⟩,
        storeSet store id ⟨e.count + 1, now, true⟩) := by
  simp [checkRateLimit, h, hin, hc]

/-! ### Claims about the rate limiter -/

/-- C2 (counterexample): the window-expiry boundary check does *not*
compare the current time against the time of the first attempt in the
window.  With `maxAttempts = 5`, `windowMs = 10` and calls at times
`0`, `6` and `11`, the window started at `0` and `11 - 0 > 10` has
elapsed, yet the third call is not treated as fresh: the count rises to
`3` (not `1`) and `remainingAttempts` is `2` (not `4`), because the
code compares against `lastAttempt = 6`, a timestamp reassigned on
every call. -/
theorem checkRateLimit_windowStart_counterexample :
    (checkRateLimit ((checkRateLimit ((checkRateLimit emptyStore 0 "x" 5
          10).2) 6 "x" 5 10).2) 11 "x" 5 10).1.remainingAttempts = 2 ∧
    (checkRateLimit ((checkRateLimit ((checkRateLimit emptyStore 0 "x" 5
          10).2) 6 "x" 5 10).2) 11 "x" 5 10).2 "x" =
      some ⟨3, 11, false⟩ ∧
    ((3 : Int) ≠ 1 ∧ (11 : Int) - 0 > 10) := by
  decide

/-- C2 (amended): the boundary check compares the current time against
the stored `lastAttempt`, which is reassigned on every call — not
against the time of the first attempt in the window.  Consequently,
once `windowMs` has strictly elapsed past `lastAttempt` (in particular
past the first attempt when there were no intervening calls), the next
`checkRateLimit` call treats the identifier as fresh: the count resets
to `1`, the call is allowed, and `remainingAttempts = maxAttempts - 1`. -/
theorem checkRateLimit_stale_entry_resets (store : Store) (now : Int)
    (id : String) (maxA win : Int) (e : RateLimitEntry)
    (hE : store id = some e) (hstale : now - e.lastAttempt > win) :
    checkRateLimit store now id maxA win =
      (⟨true, maxA - 1, now + win⟩, storeSet store id ⟨1, now, false⟩) :=
  checkRateLimit_reset store now id maxA win e hE hstale

/-- C2 witness: a stored entry last touched at time `0` is reset by a
call at time `20` with `windowMs = 10`. -/
theorem checkRateLimit_stale_entry_resets_witness :
    checkRateLimit (storeSet emptyStore "x" ⟨4, 0, true⟩) 20 "x" 5 10 =
      (⟨true, 4, 30⟩,
        storeSet (storeSet emptyStore "x" ⟨4, 0, true⟩) "x"
          ⟨1, 20, false⟩) := by
  exact checkRateLimit_stale_entry_resets _ 20 "x" 5 10 ⟨4, 0, true⟩
    (by decide) (by decide)

/-- C3 (counterexample): in the over-budget branch `resetTime` is not
`windowStart + windowDuration`.  With `maxAttempts = 1`,
`windowMs = 100` and calls at times `0` and `5`, the window started at
`0`, so the claimed `resetTime` would be `100`; the code returns
`105 = now + windowMs`, computed from the time of the rejected call. -/
theorem checkRateLimit_resetTime_counterexample :
    (checkRateLimit ((checkRateLimit emptyStore 0 "x" 1 100).2) 5 "x" 1
        100).1 = ⟨false, 0, 105⟩ ∧
    (105 : Int) ≠ 0 + 100 := by
  decide

/-- C3 (amended): for an in-window call on an existing entry whose
incremented count exceeds `maxAttempts`, `checkRateLimit` marks the
entry `blocked = true` and returns exactly
`{ allowed = false, remainingAttempts = 0, resetTime = now + windowMs }`
— the reset time is computed from the timestamp of the current
(rejected) call, i.e. the just-updated `lastAttempt`, not from the
start of the window; otherwise it returns `allowed = true` with
`remainingAttempts = maxAttempts - count` for the incremented count. -/
theorem checkRateLimit_decision_shape (store : Store) (now : Int)
    (id : String) (maxA win : Int) (e : RateLimitEntry)
    (hE : store id = some e) (hin : now - e.lastAttempt ≤ win) :
    (e.count + 1 > maxA →
      checkRateLimit store now id maxA win =
        (⟨false, 0, now + win⟩,
          storeSet store id ⟨e.count + 1, now, true⟩)) ∧
    (e.count + 1 ≤ maxA →
      checkRateLimit store now id maxA win =
        (⟨true, maxA - (e.count + 1), now + win⟩,
          storeSet store id ⟨e.count + 1, now, e.blocked⟩)) := by
  constructor
  · intro hc
    exact checkRateLimit_blocked store now id maxA win e hE
      (by omega) hc
  · intro hc
    exact checkRateLimit_allowed store now id maxA win e hE
      (by omega) (by omega)

/-- C3 witness: with a stored count of `1` and `maxAttempts = 1`, the
call at time `5` is rejected with `resetTime = 5 + 100`; with
`maxAttempts = 5` the same call is allowed with `5 - 2` attempts
remaining. -/
theorem checkRateLimit_decision_shape_witness :
    checkRateLimit (storeSet emptyStore "x" ⟨1, 0, false⟩) 5 "x" 1 100 =
      (⟨false, 0, 105⟩,
        storeSet (storeSet emptyStore "x" ⟨1, 0, false⟩) "x"
          ⟨2, 5, true⟩) ∧
    checkRateLimit (storeSet emptyStore "x" ⟨1, 0, false⟩) 5 "x" 5 100 =
      (⟨true, 3, 105⟩,
        storeSet (storeSet emptyStore "x" ⟨1, 0, false⟩) "x"
          ⟨2, 5, false⟩) := by
  constructor
  · exact (checkRateLimit_decision_shape _ 5 "x" 1 100 ⟨1, 0, false⟩
      (by decide) (by decide)).1 (by decide)
  · exact (checkRateLimit_decision_shape _ 5 "x" 5 100 ⟨1, 0, false⟩
      (by decide) (by decide)).2 (by decide)

/-- C9 (counterexample): `remainingAttempts` is not nonnegative for
*every* `maxAttempts` argument: the first call for an unseen identifier
with `maxAttempts = 0` returns `remainingAttempts = -1`. -/
theorem checkRateLimit_remaining_counterexample :
    (checkRateLimit emptyStore 0 "x" 0 100).1.remainingAttempts = -1 ∧
    ¬ (0 : Int) ≤ (checkRateLimit emptyStore 0 "x" 0
        100).1.remainingAttempts := by
  decide

/-- C9 (amended): provided `maxAttempts ≥ 1` (both call sites pass `5`
or `3`), every decision returned by `checkRateLimit` satisfies
`remainingAttempts ≥ 0`, for every identifier, every prior store state
and every call time — including the first call for an unseen
identifier. -/
theorem checkRateLimit_remaining_nonneg (store : Store) (now : Int)
    (id : String) (maxA win : Int) (hmax : 1 ≤ maxA) :
    0 ≤ (checkRateLimit store now id maxA win).1.remainingAttempts := by
  unfold checkRateLimit
  cases hs : store id with
  | none => simp; omega
  | some e =>
      simp only
      split
      · simp; omega
      · split
        · simp
        · next hc => simp; omega

/-- C9 witness: the amended bound evaluated on the first call for an
unseen identifier with the production budget `maxAttempts = 5`. -/
theorem checkRateLimit_remaining_nonneg_witness :
    0 ≤ (checkRateLimit emptyStore 0 "x" 5 900000).1.remainingAttempts :=
  checkRateLimit_remaining_nonneg emptyStore 0 "x" 5 900000 (by decide)

/-- C10: once the stored count of an identifier exceeds `maxAttempts`,
any further call arriving within `windowMs` of the immediately
preceding call (the stored `lastAttempt`) is rejected, refreshes the
entry's timestamp to the call time, keeps it blocked, and pushes
`resetTime` a full window past the current call — so an identifier that
never pauses a full `windowMs` is never unblocked. -/
theorem checkRateLimit_block_extension (store : Store) (now : Int)
    (id : String) (maxA win : Int) (e : RateLimitEntry)
    (hE : store id = some e) (hover : e.count > maxA)
    (hin : now - e.lastAttempt ≤ win) :
    (checkRateLimit store now id maxA win).1.allowed = false ∧
    (checkRateLimit store now id maxA win).1.resetTime = now + win ∧
    (checkRateLimit store now id maxA win).2 id =
      some ⟨e.count + 1, now, true⟩ := by
  rw [checkRateLimit_blocked store now id maxA win e hE (by omega)
    (by omega)]
  exact ⟨rfl, rfl, storeSet_self store id _⟩

/-- C10 witness: an entry with count `6 > 5` last touched at time `0`
is rejected again at time `10` (window `15`), with its timestamp
refreshed to `10` and `resetTime = 25`. -/
theorem checkRateLimit_block_extension_witness :
    (checkRateLimit (storeSet emptyStore "x" ⟨6, 0, true⟩) 10 "x" 5
        15).1.allowed = false ∧
    (checkRateLimit (storeSet emptyStore "x" ⟨6, 0, true⟩) 10 "x" 5
        15).1.resetTime = 10 + 15 ∧
    (checkRateLimit (storeSet emptyStore "x" ⟨6, 0, true⟩) 10 "x" 5
        15).2 "x" = some ⟨7, 10, true⟩ := by
  exact checkRateLimit_block_extension _ 10 "x" 5 15 ⟨6, 0, true⟩
    (by decide) (by decide) (by decide)

/-! ### Claims about the validators -/

/-- C8: `validatePassword` checks its six rules in the fixed order
too-short, too-long, missing lowercase, missing uppercase, missing
digit, missing special character, and returns exactly the first
violated rule's message, never aggregating; when every rule passes it
returns `{ isValid := true }`.  In particular `"short1!"` is rejected
as too short, `"alllowercase1!"` is rejected for the missing uppercase
letter, and `"Valid1Pass!"` is accepted. -/
theorem validatePassword_first_violation (p : String) :
    (p.length < 8 →
      validatePassword p =
        ⟨false, some "Password must be at least 8 characters long"⟩) ∧
    (¬ p.length < 8 → p.length > 128 →
      validatePassword p =
        ⟨false, some "Password must be less than 128 characters"⟩) ∧
    (¬ p.length < 8 → ¬ p.length > 128 →
      p.toList.any Char.isLower = false →
      validatePassword p =
        ⟨false,
          some "Password must contain at least one lowercase letter"⟩) ∧
    (¬ p.length < 8 → ¬ p.length > 128 →
      p.toList.any Char.isLower = true →
      p.toList.any Char.isUpper = false →
      validatePassword p =
        ⟨false,
          some "Password must contain at least one uppercase letter"⟩) ∧
    (¬ p.length < 8 → ¬ p.length > 128 →
      p.toList.any Char.isLower = true →
      p.toList.any Char.isUpper = true →
      p.toList.any Char.isDigit = false →
      validatePassword p =
        ⟨false, some "Password must contain at least one number"⟩) ∧
    (¬ p.length < 8 → ¬ p.length > 128 →
      p.toList.any Char.isLower = true →
      p.toList.any Char.isUpper = true →
      p.toList.any Char.isDigit = true →
      p.toList.any isSpecialChar = false →
      validatePassword p =
        ⟨false,
          some "Password must contain at least one special character"⟩) ∧
    (¬ p.length < 8 → ¬ p.length > 128 →
      p.toList.any Char.isLower = true →
      p.toList.any Char.isUpper = true →
      p.toList.any Char.isDigit = true →
      p.toList.any isSpecialChar = true →
      validatePassword p = ⟨true, none⟩) ∧
    (validatePassword "short1!" =
      ⟨false, some "Password must be at least 8 characters long"⟩ ∧
     validatePassword "alllowercase1!" =
      ⟨false,
        some "Password must contain at least one uppercase letter"⟩ ∧
     validatePassword "Valid1Pass!" = ⟨true, none⟩) := by
  refine ⟨fun h1 => ?_, fun h1 h2 => ?_, fun h1 h2 hl => ?_,
    fun h1 h2 hl hu => ?_, fun h1 h2 hl hu hd => ?_,
    fun h1 h2 hl hu hd hsp => ?_, fun h1 h2 hl hu hd hsp => ?_,
    by decide, by decide, by decide⟩
  · unfold validatePassword
    rw [if_pos h1]
  · unfold validatePassword
    rw [if_neg h1, if_pos h2]
  · unfold validatePassword
    rw [if_neg h1, if_neg h2, if_pos (by rw [hl]; decide)]
  · unfold validatePassword
    rw [if_neg h1, if_neg h2, if_neg (by rw [hl]; decide),
      if_pos (by rw [hu]; decide)]
  · unfold validatePassword
    rw [if_neg h1, if_neg h2, if_neg (by rw [hl]; decide),
      if_neg (by rw [hu]; decide), if_pos (by rw [hd]; decide)]
  · unfold validatePassword
    rw [if_neg h1, if_neg h2, if_neg (by rw [hl]; decide),
      if_neg (by rw [hu]; decide), if_neg (by rw [hd]; decide),
      if_pos (by rw [hsp]; decide)]
  · unfold validatePassword
    rw [if_neg h1, if_neg h2, if_neg (by rw [hl]; decide),
      if_neg (by rw [hu]; decide), if_neg (by rw [hd]; decide),
      if_neg (by rw [hsp]; decide)]

/-- C8 witness: the first conjunct applied to the concrete password
`"short1!"`, whose length `7` violates the first rule. -/
theorem validatePassword_first_violation_witness :
    validatePassword "short1!" =
      ⟨false, some "Password must be at least 8 characters long"⟩ :=
  (validatePassword_first_violation "short1!").1 (by decide)

/-! ### Claims about the `updateSession` middleware -/

/-- C5 (counterexample): the four security headers are *not* present on
every response.  The protected, unauthenticated request `/polls` is
answered by the fresh redirect response created on the redirect branch,
which carries none of the headers set on the pass-through response — in
particular `X-Frame-Options: DENY` is absent. -/
theorem updateSession_redirect_headers_counterexample :
    updateSession ⟨"/polls", false⟩ =
      MwResult.redirect "/login" "/polls" ∧
    ¬ ("X-Frame-Options", "DENY") ∈
        (updateSession ⟨"/polls", false⟩).securityHeaderList := by
  decide

/-- C5 (amended): every pass-through response of `updateSession` —
public path, static file, or protected-and-authenticated — carries all
four security headers; the redirect-to-login response is created fresh
and carries none of them. -/
theorem updateSession_headers (req : MwRequest) :
    ((updateSession req).isRedirect = false →
      ("X-Frame-Options", "DENY") ∈
          (updateSession req).securityHeaderList ∧
      ("X-Content-Type-Options", "nosniff") ∈
          (updateSession req).securityHeaderList ∧
      ("Referrer-Policy", "strict-origin-when-cross-origin") ∈
          (updateSession req).securityHeaderList ∧
      ("X-XSS-Protection", "1; mode=block") ∈
          (updateSession req).securityHeaderList) ∧
    ((updateSession req).isRedirect = true →
      (updateSession req).securityHeaderList = []) := by
  unfold updateSession
  split
  · exact ⟨fun _ => by
      simp [MwResult.securityHeaderList, securityHeaders],
      fun h => by simp [MwResult.isRedirect] at h⟩
  · split
    · exact ⟨fun h => by simp [MwResult.isRedirect] at h,
        fun _ => rfl⟩
    · exact ⟨fun _ => by
        simp [MwResult.securityHeaderList, securityHeaders],
        fun h => by simp [MwResult.isRedirect] at h⟩

/-- C5 witness: the public request `/login` passes through with
`X-Frame-Options: DENY` present. -/
theorem updateSession_headers_witness :
    ("X-Frame-Options", "DENY") ∈
      (updateSession ⟨"/login", false⟩).securityHeaderList :=
  ((updateSession_headers ⟨"/login", false⟩).1 (by decide)).1

/-- C6: path classification of `updateSession` — a request whose path
matches the public-path list or the static-file-extension pattern
passes through unredirected regardless of auth state; a protected
request without a principal is redirected to `/login` with the
original path as the `redirect` query parameter; a protected request
with a principal passes through. -/
theorem updateSession_routing (req : MwRequest) :
    ((isPublicPath req.pathname || isStaticFile req.pathname) = true →
      updateSession req = MwResult.next securityHeaders) ∧
    ((isPublicPath req.pathname || isStaticFile req.pathname) = false →
      req.user = false →
      updateSession req = MwResult.redirect "/login" req.pathname) ∧
    ((isPublicPath req.pathname || isStaticFile req.pathname) = false →
      req.user = true →
      updateSession req = MwResult.next securityHeaders) := by
  refine ⟨fun h => ?_, fun h hu => ?_, fun h hu => ?_⟩
  · simp [updateSession, h]
  · simp [updateSession, h, hu]
  · simp [updateSession, h, hu]

/-- C6 witness: the protected request `/polls` without a principal is
redirected to `/login?redirect=/polls`. -/
theorem updateSession_routing_witness :
    updateSession ⟨"/polls", false⟩ =
      MwResult.redirect "/login" "/polls" :=
  (updateSession_routing ⟨"/polls", false⟩).2.1 (by decide) (by decide)

/-! ### Claims about the `login` action -/

/-- C7: when the `login` pipeline reaches the provider (rate limit
allowed, fields present, email valid) and the provider fails, the
returned error is `mapSignInError` of the provider message, which is
always one of the three mapped public messages or the single generic
catch-all; a thrown provider exception is likewise converted to the
fixed unexpected-error message, so no raw provider text or exception
crosses the boundary. -/
theorem login_provider_error_mapping (store : Store) (now : Int)
    (ip email pw msg : String)
    (hA : (checkRateLimit store now ("login:" ++ ip) 5
        900000).1.allowed = true)
    (hE : email.length ≠ 0) (hP : pw.length ≠ 0)
    (hV : validateEmail (sanitizeInput email) = true) :
    (login store now ip email pw (.failure msg)).1.error =
        some (mapSignInError msg) ∧
    mapSignInError msg ∈ publicSignInErrors ∧
    (login store now ip email pw .thrown).1.error =
        some "An unexpected error occurred. Please try again" := by
  have hcond : (email.length == 0 || pw.length == 0) = false := by
    simp [hE, hP]
  have hlen : ¬ pw.length < 1 := by omega
  refine ⟨?_, ?_, ?_⟩
  · simp [login, hA, hcond, hV, hlen]
  · unfold mapSignInError
    split
    · simp [publicSignInErrors]
    · split
      · simp [publicSignInErrors]
      · split
        · simp [publicSignInErrors]
        · simp [publicSignInErrors]
  · simp [login, hA, hcond, hV, hlen]

/-- C7 witness: a provider failure `"Invalid login credentials"` during
a well-formed login attempt is surfaced as the mapped public message. -/
theorem login_provider_error_mapping_witness :
    (login emptyStore 0 "1.2.3.4" "user@example.com" "Valid1Pass!"
        (.failure "Invalid login credentials")).1.error =
      some (mapSignInError "Invalid login credentials") ∧
    mapSignInError "Invalid login credentials" ∈ publicSignInErrors ∧
    (login emptyStore 0 "1.2.3.4" "user@example.com" "Valid1Pass!"
        .thrown).1.error =
      some "An unexpected error occurred. Please try again" :=
  login_provider_error_mapping emptyStore 0 "1.2.3.4" "user@example.com"
    "Valid1Pass!" "Invalid login credentials" (by decide) (by decide)
    (by decide) (by decide)

/-- C4 (counterexample): a successful login does *not* remove the
caller's rate-limit entry.  With an accumulated entry of count `3` for
`login:1.2.3.4`, a login at time `1` that the provider accepts returns
`error = null`, yet the entry is still in the store afterwards — with
its count incremented to `4` by the check performed during this very
call — so the next `checkRateLimit` does not behave as a fresh
identifier. -/
theorem login_success_keeps_entry_counterexample :
    (login (storeSet emptyStore "login:1.2.3.4" ⟨3, 0, false⟩) 1
        "1.2.3.4" "user@example.com" "Valid1Pass!" .success).1.error =
      none ∧
    (login (storeSet emptyStore "login:1.2.3.4" ⟨3, 0, false⟩) 1
        "1.2.3.4" "user@example.com" "Valid1Pass!" .success).2
      "login:1.2.3.4" = some ⟨4, 1, false⟩ := by
  decide

/-- C4 (amended): `clearRateLimit` does remove an entry outright, so a
subsequent `checkRateLimit` for that identifier behaves exactly as for
a fresh identifier; but `login` never invokes it: on every path —
success included — the store returned by `login` is the store produced
by its initial `checkRateLimit` call, so the accumulated attempt count
(incremented by the current call) is retained after a successful
login. -/
theorem clearRateLimit_fresh_login_no_clear (store : Store)
    (id : String) (now maxA win t : Int) (ip email pw : String)
    (provider : ProviderOutcome) :
    (checkRateLimit (clearRateLimit store id) now id maxA win =
      (⟨true, maxA - 1, now + win⟩,
        storeSet (clearRateLimit store id) id ⟨1, now, false⟩)) ∧
    ((login store t ip email pw provider).2 =
      (checkRateLimit store t ("login:" ++ ip) 5 900000).2) := by
  constructor
  · exact checkRateLimit_fresh _ now id maxA win
      (clearRateLimit_self store id)
  · unfold login
    dsimp only
    repeat' split
    all_goals rfl

/-! ### The attempt-budget trace claim -/

lemma times_gap (maxA : Nat) (win : Int) (times : Nat → Int)
    (hmono : ∀ i j, i ≤ j → j ≤ maxA → times i ≤ times j)
    (hwin : times maxA - times 0 ≤ win) {k : Nat} (hk : k + 1 ≤ maxA) :
    times (k + 1) - times k ≤ win := by
  have h1 : times 0 ≤ times k := hmono 0 k (Nat.zero_le k) (by omega)
  have h2 : times (k + 1) ≤ times maxA := hmono (k + 1) maxA hk
    (Nat.le_refl maxA)
  omega

/-- Store invariant along a trace of in-window calls for one fresh
identifier: after `k + 1 ≤ maxAttempts` calls the entry holds count
`k + 1`, the timestamp of the last call, and `blocked = false`, and the
`(k+1)`-th call was allowed. -/
lemma stateAfter_inv (s0 : Store) (id : String) (maxA : Nat) (win : Int)
    (times : Nat → Int) (h0 : s0 id = none)
    (hmono : ∀ i j, i ≤ j → j ≤ maxA → times i ≤ times j)
    (hwin : times maxA - times 0 ≤ win) :
    ∀ k, k < maxA →
      stateAfter s0 id (maxA : Int) win times (k + 1) id =
        some ⟨(k : Int) + 1, times k, false⟩ ∧
      (decisionAt s0 id (maxA : Int) win times k).allowed = true := by
  intro k
  induction k with
  | zero =>
      intro _
      have h00 : stateAfter s0 id (maxA : Int) win times 0 = s0 := rfl
      have estep := checkRateLimit_fresh s0 (times 0) id (maxA : Int)
        win h0
      constructor
      · show (checkRateLimit (stateAfter s0 id (maxA : Int) win times 0)
            (times 0) id (maxA : Int) win).2 id = _
        rw [h00, estep]
        simp [storeSet_self]
      · unfold decisionAt
        rw [h00, estep]
  | succ k ih =>
      intro hk
      obtain ⟨hstate, _⟩ := ih (by omega)
      have hgap : times (k + 1) - times k ≤ win :=
        times_gap maxA win times hmono hwin (by omega)
      have hin : ¬ times (k + 1) -
          (⟨(k : Int) + 1, times k, false⟩ : RateLimitEntry).lastAttempt
            > win := by
        show ¬ times (k + 1) - times k > win
        omega
      have hc : ¬ (⟨(k : Int) + 1, times k, false⟩ :
          RateLimitEntry).count + 1 > (maxA : Int) := by
        show ¬ (k : Int) + 1 + 1 > (maxA : Int)
        omega
      have estep := checkRateLimit_allowed
        (stateAfter s0 id (maxA : Int) win times (k + 1)) (times (k + 1))
        id (maxA : Int) win _ hstate hin hc
      constructor
      · show (checkRateLimit
            (stateAfter s0 id (maxA : Int) win times (k + 1))
            (times (k + 1)) id (maxA : Int) win).2 id = _
        rw [estep]
        simp [storeSet_self]
      · unfold decisionAt
        rw [estep]

/-- C1: for every identifier with no prior entry and every
`maxAttempts ≥ 1`, a monotone sequence of `maxAttempts + 1` calls all
lying within `windowMs` of the first one has its first `maxAttempts`
calls return `allowed = true` and its `(maxAttempts + 1)`-th call
return `allowed = false`. -/
theorem checkRateLimit_budget_exhaustion (s0 : Store) (id : String)
    (maxA : Nat) (win : Int) (times : Nat → Int) (h0 : s0 id = none)
    (hmax : 1 ≤ maxA)
    (hmono : ∀ i j, i ≤ j → j ≤ maxA → times i ≤ times j)
    (hwin : times maxA - times 0 ≤ win) :
    (∀ k, k < maxA →
      (decisionAt s0 id (maxA : Int) win times k).allowed = true) ∧
    (decisionAt s0 id (maxA : Int) win times maxA).allowed = false := by
  constructor
  · intro k hk
    exact (stateAfter_inv s0 id maxA win times h0 hmono hwin k hk).2
  · obtain ⟨m, rfl⟩ : ∃ m, maxA = m + 1 := ⟨maxA - 1, by omega⟩
    have hstate := (stateAfter_inv s0 id (m + 1) win times h0 hmono hwin
      m (by omega)).1
    have hgap : times (m + 1) - times m ≤ win :=
      times_gap (m + 1) win times hmono hwin (by omega)
    have hin : ¬ times (m + 1) -
        (⟨(m : Int) + 1, times m, false⟩ : RateLimitEntry).lastAttempt
          > win := by
      show ¬ times (m + 1) - times m > win
      omega
    have hc : (⟨(m : Int) + 1, times m, false⟩ :
        RateLimitEntry).count + 1 > ((m + 1 : Nat) : Int) := by
      show (m : Int) + 1 + 1 > ((m + 1 : Nat) : Int)
      push_cast
      omega
    unfold decisionAt
    rw [checkRateLimit_blocked
      (stateAfter s0 id ((m + 1 : Nat) : Int) win times (m + 1))
      (times (m + 1)) id ((m + 1 : Nat) : Int) win _ hstate hin hc]

/-- C1 witness: with `maxAttempts = 2`, `windowMs = 10` and all three
calls at time `0`, the third call for the fresh identifier `"x"` is
rejected. -/
theorem checkRateLimit_budget_exhaustion_witness :
    (decisionAt emptyStore "x" ((2 : Nat) : Int) 10 zeroTimes
      2).allowed = false :=
  (checkRateLimit_budget_exhaustion emptyStore "x" 2 10 zeroTimes rfl
    (by decide) (fun i j _ _ => le_refl 0) (by decide)).2

end AlxPolly
